import Mathlib

/-!
Verification development for the RunNote OAuth / activity-sync core.

The definitions below are a shallow embedding of the three Deno edge
functions (`strava-auth`, `strava-webhook`, `strava-sync`) and of the
`oauth_states` / `activities` tables of the SQL schema.  External effects
(database lookups, HTTP responses from the remote platform) are passed in
explicitly as oracle values; each handler additionally returns the count of
outbound effect calls it performed (token refreshes, listing fetches,
per-activity detail fetches, upsert attempts), so that claims about "zero
refresh calls" or "exactly one retry" are statable.
-/

/-- One row of the `oauth_states` table: the CSRF token (primary key) and its
creation time in milliseconds (`Date.now()` scale). -/
structure OAuthState where
  state : String
  created_at : Int
deriving Repr, DecidableEq

/-- The `oauth_states` table. The primary-key constraint of the schema is not
baked in; the theorems take it as a hypothesis where needed. -/
abbrev StateStore := List OAuthState

/-- Outcome of the state-validation section of `handleCallback`
(part_001 lines 124-150). -/
inductive ConsumeResult
| invalidState
| expiredState
| consumed
deriving Repr, DecidableEq

/-- `supabase.from('oauth_states').delete().eq('state', state)`: removes every
row whose `state` column equals the token. -/
def deleteState (store : StateStore) (token : String) : StateStore :=
  store.filter (fun q => !(q.state == token))

/-- The state-validation section of `handleCallback` (part_001 lines 124-150):
look the token up (`.select('*').eq('state', state).single()`); absent row is
a 403 "Invalid or expired state"; a row older than 600000 ms is deleted and
rejected as 403 "State expired"; otherwise the row is deleted and validation
succeeds.  `now` is `Date.now()` in milliseconds. -/
def consumeState (now : Int) (store : StateStore) (token : String) :
    ConsumeResult × StateStore :=
  match store.find? (fun q => q.state == token) with
  | none => (ConsumeResult.invalidState, store)
  | some r =>
    if now - r.created_at > 600000 then
      (ConsumeResult.expiredState, deleteState store token)
    else
      (ConsumeResult.consumed, deleteState store token)

theorem find?_deleteState (store : StateStore) (token : String) :
    (deleteState store token).find? (fun q => q.state == token) = none := by
  rw [List.find?_eq_none]
  intro x hx
  rw [deleteState, List.mem_filter] at hx
  simpa using hx.2

/-- Claim C1: on state consumption, a missing row fails with `InvalidState`
(store untouched); a matching row older than 10 minutes is deleted and fails
with `ExpiredState`; otherwise the row is deleted and validation succeeds.
Consequently a successful consume deletes every row carrying the token, so a
second sequential consume with the same token fails with `InvalidState`. -/
theorem consume_state_spec (now : Int) (store : StateStore) (token : String) :
    (store.find? (fun q => q.state == token) = none →
      consumeState now store token = (ConsumeResult.invalidState, store))
    ∧ (∀ r, store.find? (fun q => q.state == token) = some r →
        now - r.created_at > 600000 →
        consumeState now store token =
          (ConsumeResult.expiredState, deleteState store token))
    ∧ (∀ r, store.find? (fun q => q.state == token) = some r →
        now - r.created_at ≤ 600000 →
        consumeState now store token =
          (ConsumeResult.consumed, deleteState store token))
    ∧ ((consumeState now store token).1 = ConsumeResult.consumed →
        ∀ now2, (consumeState now2 (consumeState now store token).2 token).1 =
          ConsumeResult.invalidState) := by
  refine ⟨?_, ?_, ?_, ?_⟩
  · intro h
    simp [consumeState, h]
  · intro r hr hold
    simp [consumeState, hr, hold]
  · intro r hr hfresh
    have : ¬ (now - r.created_at > 600000) := by omega
    simp [consumeState, hr, this]
  · intro hok now2
    rcases hfind : store.find? (fun q => q.state == token) with _ | r
    · simp [consumeState, hfind] at hok
    · by_cases hold : now - r.created_at > 600000
      · simp [consumeState, hfind, hold] at hok
      · have hsnd : (consumeState now store token).2 = deleteState store token := by
          simp [consumeState, hfind, hold]
        rw [hsnd]
        simp [consumeState, find?_deleteState]

/-- Witness for C1 on a concrete one-row store: consumption succeeds and
deletes the row, and the replayed consume fails with `InvalidState`. -/
theorem consume_state_spec_witness :
    consumeState 100 [⟨"s1", 0⟩] "s1" =
      (ConsumeResult.consumed, deleteState [⟨"s1", 0⟩] "s1")
    ∧ (consumeState 200 (consumeState 100 [⟨"s1", 0⟩] "s1").2 "s1").1 =
      ConsumeResult.invalidState := by
  refine ⟨?_, ?_⟩
  · exact (consume_state_spec 100 [⟨"s1", 0⟩] "s1").2.2.1 ⟨"s1", 0⟩ (by decide)
      (by decide)
  · exact (consume_state_spec 100 [⟨"s1", 0⟩] "s1").2.2.2 (by decide) 200

/-- One row of the `profiles` table, restricted to the columns the token
lifecycle reads and writes.  `strava_token_expires_at` is kept in epoch
seconds (the code stores an ISO timestamp and converts back with
`new Date(...).getTime() / 1000`). -/
structure Profile where
  id : Nat
  strava_athlete_id : Nat
  strava_access_token : String
  strava_refresh_token : String
  strava_token_expires_at : Int
deriving Repr, DecidableEq

/-- Body of a successful response from the platform token endpoint
(`POST /api/v3/oauth/token`, grant_type refresh_token). -/
structure RefreshData where
  access_token : String
  refresh_token : String
  expires_at : Int
deriving Repr, DecidableEq

/-- `refreshTokens` (part_002 lines 169-209, identical in strava-sync lines
153-191): calls the refresh endpoint; a non-OK response throws; on success the
profile's access token, refresh token and expiry are replaced by the response
values and the updated row is returned.  The endpoint response is the oracle
argument: `none` models a non-OK response. -/
def refreshTokens (refreshResp : Option RefreshData) (p : Profile) :
    Except Unit Profile :=
  match refreshResp with
  | none => Except.error ()
  | some d =>
    Except.ok { p with
      strava_access_token := d.access_token,
      strava_refresh_token := d.refresh_token,
      strava_token_expires_at := d.expires_at }

/-- `ensureValidTokens` (part_002 lines 150-164, identical in strava-sync
lines 135-148): refresh iff `expiresAt <= now + 60`, else return the profile
unchanged.  The second component counts calls to the refresh endpoint. -/
def ensureValidTokens (now : Int) (refreshResp : Option RefreshData)
    (p : Profile) : Except Unit Profile × Nat :=
  if p.strava_token_expires_at ≤ now + 60 then
    (refreshTokens refreshResp p, 1)
  else
    (Except.ok p, 0)

/-- Claim C4: with remaining lifetime strictly greater than 60 seconds,
`ensureValidTokens` returns the credential unchanged with zero refresh calls;
with remaining lifetime at most 60 seconds it performs exactly one refresh
call and, on a successful refresh response, returns the profile with access
token, refresh token and expiry all replaced by the response values. -/
theorem ensure_valid_tokens_spec (now : Int) (refreshResp : Option RefreshData)
    (p : Profile) :
    (p.strava_token_expires_at - now > 60 →
      ensureValidTokens now refreshResp p = (Except.ok p, 0))
    ∧ (p.strava_token_expires_at - now ≤ 60 →
        (ensureValidTokens now refreshResp p).2 = 1
        ∧ ∀ d, refreshResp = some d →
            (ensureValidTokens now refreshResp p).1 =
              Except.ok { p with
                strava_access_token := d.access_token,
                strava_refresh_token := d.refresh_token,
                strava_token_expires_at := d.expires_at }) := by
  constructor
  · intro h
    have : ¬ (p.strava_token_expires_at ≤ now + 60) := by omega
    simp [ensureValidTokens, this]
  · intro h
    have hle : p.strava_token_expires_at ≤ now + 60 := by omega
    constructor
    · simp [ensureValidTokens, hle]
    · intro d hd
      simp [ensureValidTokens, hle, refreshTokens, hd]

/-- Witness for C4 at concrete inputs: a credential 61 seconds from expiry is
returned unchanged with no refresh; a credential 60 seconds from expiry is
refreshed exactly once and carries the response values. -/
theorem ensure_valid_tokens_spec_witness :
    ensureValidTokens 1000 (some ⟨"a2", "r2", 5000⟩) ⟨7, 42, "a1", "r1", 1061⟩ =
      (Except.ok ⟨7, 42, "a1", "r1", 1061⟩, 0)
    ∧ (ensureValidTokens 1000 (some ⟨"a2", "r2", 5000⟩)
        ⟨7, 42, "a1", "r1", 1060⟩).2 = 1
    ∧ (ensureValidTokens 1000 (some ⟨"a2", "r2", 5000⟩)
        ⟨7, 42, "a1", "r1", 1060⟩).1 = Except.ok ⟨7, 42, "a2", "r2", 5000⟩ := by
  refine ⟨?_, ?_, ?_⟩
  · exact (ensure_valid_tokens_spec 1000 (some ⟨"a2", "r2", 5000⟩)
      ⟨7, 42, "a1", "r1", 1061⟩).1 (by decide)
  · exact ((ensure_valid_tokens_spec 1000 (some ⟨"a2", "r2", 5000⟩)
      ⟨7, 42, "a1", "r1", 1060⟩).2 (by decide)).1
  · exact ((ensure_valid_tokens_spec 1000 (some ⟨"a2", "r2", 5000⟩)
      ⟨7, 42, "a1", "r1", 1060⟩).2 (by decide)).2 ⟨"a2", "r2", 5000⟩ rfl

/-- A remote activity as the claims need it: the Strava id, the `type` tag
used for the "Run" filter, and the display name. -/
structure Activity where
  id : Nat
  type : String
  name : String
deriving Repr, DecidableEq

/-- An HTTP response from the remote platform for a single-activity fetch:
the status code and the decoded body (only read when the status is OK). -/
structure HttpResp where
  status : Nat
  body : Activity
deriving Repr, DecidableEq

/-- `response.ok` of the fetch API: status in the range 200-299. -/
def respOk (r : HttpResp) : Bool :=
  decide (200 ≤ r.status) && decide (r.status < 300)

/-- Counters for the outbound effect calls a handler performs. -/
structure Effects where
  refreshCalls : Nat
  listFetches : Nat
  detailFetches : Nat
  upsertCalls : Nat
deriving Repr, DecidableEq

def Effects.zero : Effects := ⟨0, 0, 0, 0⟩

/-- `fetchStravaActivity` (part_002 lines 214-231, identical in strava-sync
lines 241-258): performs exactly one GET of `/activities/{id}`; any non-OK
response (401 included) logs and returns null; an OK response returns the
body.  The function has no access to the token refresher and no retry path:
its effect count records the single HTTP call and zero refresh calls. -/
def fetchStravaActivity (resp : HttpResp) : Option Activity × Effects :=
  if respOk resp then (some resp.body, ⟨0, 0, 1, 0⟩)
  else (none, ⟨0, 0, 1, 0⟩)

def act0 : Activity := ⟨999, "Run", "Morning Run"⟩

/-- Counterexample to claim C3: a 401 response to the single-activity fetch
triggers zero token refreshes (and no retry), not the claimed exactly one
reactive refresh-and-retry. -/
theorem fetch_401_refresh_counterexample :
    ¬ ((fetchStravaActivity ⟨401, act0⟩).2.refreshCalls = 1) := by
  decide

/-- Claim C3 amended: an authorization-failure (401) response — like every
non-OK response — makes the authenticated single-activity fetch return
failure (`none`) immediately after its single HTTP call, with zero token
refreshes and zero retries; no reactive refresh-and-retry exists. -/
theorem fetch_non_ok_spec (resp : HttpResp) (h : respOk resp = false) :
    fetchStravaActivity resp = (none, ⟨0, 0, 1, 0⟩) := by
  simp [fetchStravaActivity, h]

/-- Witness for the amended C3 at a concrete 401 response. -/
theorem fetch_non_ok_spec_witness :
    fetchStravaActivity ⟨401, act0⟩ = (none, ⟨0, 0, 1, 0⟩) :=
  fetch_non_ok_spec ⟨401, act0⟩ (by decide)

/-- The body of a webhook event delivery POST
(`{object_type, aspect_type, owner_id, object_id}`). -/
structure WebhookEvent where
  object_type : String
  aspect_type : String
  owner_id : Nat
  object_id : Nat
deriving Repr, DecidableEq

/-- Environment of one webhook event delivery: the event, the result of the
profile lookup by `owner_id`, the clock, the refresh-endpoint oracle, the
response to the single-activity fetch, and whether the upsert errors. -/
structure WebhookEnv where
  event : WebhookEvent
  profile : Option Profile
  now : Int
  refreshResp : Option RefreshData
  activityResp : HttpResp
  upsertError : Bool

/-- `handleWebhookEvent` (part_002 lines 59-145): non-activity object types
and aspect types other than create/update are acknowledged with 200; a
profile-lookup miss is acknowledged with 200; then tokens are ensured (a
refresh failure throws, modelled as `Except.error`), the activity is fetched
(a failed fetch is acknowledged with 200), non-Run activities are
acknowledged with 200, and the upsert result is logged but the response is
200 either way. -/
def handleWebhookEvent (env : WebhookEnv) : Except Unit Nat × Effects :=
  if !(env.event.object_type == "activity") then
    (Except.ok 200, Effects.zero)
  else if !(env.event.aspect_type == "create")
      && !(env.event.aspect_type == "update") then
    (Except.ok 200, Effects.zero)
  else
    match env.profile with
    | none => (Except.ok 200, Effects.zero)
    | some p =>
      match ensureValidTokens env.now env.refreshResp p with
      | (Except.error e, n) => (Except.error e, ⟨n, 0, 0, 0⟩)
      | (Except.ok _, n) =>
        match (fetchStravaActivity env.activityResp).1 with
        | none => (Except.ok 200, ⟨n, 0, 1, 0⟩)
        | some a =>
          if !(a.type == "Run") then (Except.ok 200, ⟨n, 0, 1, 0⟩)
          else (Except.ok 200, ⟨n, 0, 1, 1⟩)

/-- The `Deno.serve` wrapper of part_002 (lines 8-28): a thrown error is
caught and answered with status 500; otherwise the handler's response is
returned. -/
def serveWebhook (env : WebhookEnv) : Nat × Effects :=
  match handleWebhookEvent env with
  | (Except.ok s, e) => (s, e)
  | (Except.error _, e) => (500, e)

def webhookRefreshFailEnv : WebhookEnv :=
  { event := ⟨"activity", "create", 42, 999⟩
    profile := some ⟨7, 42, "a1", "r1", 1000⟩
    now := 1000
    refreshResp := none
    activityResp := ⟨200, act0⟩
    upsertError := false }

/-- Counterexample to claim C2: an event delivery whose token refresh fails
(expiring credential, refresh endpoint non-OK) throws, is caught by the
outer handler, and is answered with 500 — an internal processing failure
surfaced to the platform as a non-200 response. -/
theorem webhook_500_counterexample :
    ¬ ((serveWebhook webhookRefreshFailEnv).1 = 200) := by
  decide

/-- Claim C2 amended: every event delivery whose token-refresh step does not
throw is acknowledged with 200 — this covers all four enumerated internal
failures (no connected profile, failed remote fetch, non-run category,
failed upsert) as well as ignored event shapes; but a token refresh failure
during delivery propagates as an exception and is surfaced as 500 by the
outer handler, so not every internal processing failure yields 200. -/
theorem webhook_ack_spec (env : WebhookEnv) :
    ((∀ p, env.profile = some p →
        (ensureValidTokens env.now env.refreshResp p).1 ≠ Except.error ()) →
      (serveWebhook env).1 = 200)
    ∧ (∀ p, env.profile = some p →
        env.event.object_type = "activity" →
        (env.event.aspect_type = "create" ∨ env.event.aspect_type = "update") →
        (ensureValidTokens env.now env.refreshResp p).1 = Except.error () →
        (serveWebhook env).1 = 500) := by
  constructor
  · intro hok
    by_cases hobj : env.event.object_type = "activity"
    · by_cases hasp : env.event.aspect_type = "create"
        ∨ env.event.aspect_type = "update"
      · rcases hp : env.profile with _ | p
        · rcases hasp with h | h <;>
            simp [serveWebhook, handleWebhookEvent, hobj, h, hp]
        · rcases hens : ensureValidTokens env.now env.refreshResp p
            with ⟨res, n⟩
          rcases res with e | q
          · exact absurd (by rw [hens]) (hok p hp)
          · rcases hfa : (fetchStravaActivity env.activityResp).1 with _ | a
            · rcases hasp with h | h <;>
                simp [serveWebhook, handleWebhookEvent, hobj, h, hp, hens, hfa]
            · rcases hasp with h | h <;>
                by_cases hrun : a.type = "Run" <;>
                simp [serveWebhook, handleWebhookEvent, hobj, h, hp, hens,
                  hfa, hrun]
      · have h1 : ¬ (env.event.aspect_type = "create") := fun h => hasp (Or.inl h)
        have h2 : ¬ (env.event.aspect_type = "update") := fun h => hasp (Or.inr h)
        simp [serveWebhook, handleWebhookEvent, hobj, h1, h2]
    · simp [serveWebhook, handleWebhookEvent, hobj]
  · intro p hp hobj hasp herr
    rcases hens : ensureValidTokens env.now env.refreshResp p with ⟨res, n⟩
    rcases res with e | q
    · rcases hasp with h | h <;>
        simp [serveWebhook, handleWebhookEvent, hobj, h, hp, hens]
    · rw [hens] at herr
      simp at herr

/-- Witness for the amended C2: a delivery with a failed remote fetch (404)
and a fresh credential is acknowledged with 200, and the refresh-failure
delivery is answered with 500. -/
theorem webhook_ack_spec_witness :
    (serveWebhook
      { event := ⟨"activity", "update", 42, 999⟩
        profile := some ⟨7, 42, "a1", "r1", 99999⟩
        now := 1000
        refreshResp := none
        activityResp := ⟨404, act0⟩
        upsertError := false }).1 = 200
    ∧ (serveWebhook webhookRefreshFailEnv).1 = 500 := by
  constructor
  · refine (webhook_ack_spec _).1 ?_
    intro p hp
    injection hp with hp
    subst hp
    simp [ensureValidTokens]
  · refine (webhook_ack_spec webhookRefreshFailEnv).2 ⟨7, 42, "a1", "r1", 1000⟩
      rfl rfl (Or.inl rfl) (by simp [ensureValidTokens, refreshTokens,
        webhookRefreshFailEnv])

/-- The paginated listing loop of `fetchStravaActivities` (strava-sync lines
196-236), fuel-indexed.  `pages` is the listing oracle: `none` models a
non-OK response to `GET /athlete/activities?after&page&per_page=100`, `some
batch` the decoded page.  Each iteration fetches one page; a non-OK response
or an empty batch breaks with the accumulated activities; otherwise the
batch is appended and, per the code's `page > 10` check after the increment,
the loop continues only while pages remain below the ceiling.  `fuel` counts
the pages still allowed (the ceiling allows pages 1..10); the second result
component counts page fetches performed. -/
def fetchPages (pages : Nat → Option (List Activity)) :
    Nat → Nat → List Activity → List Activity × Nat
  | 0, _, acc => (acc, 0)
  | fuel + 1, page, acc =>
    match pages page with
    | none => (acc, 1)
    | some [] => (acc, 1)
    | some batch =>
      if fuel = 0 then (acc ++ batch, 1)
      else
        let r := fetchPages pages fuel (page + 1) (acc ++ batch)
        (r.1, r.2 + 1)

/-- `fetchStravaActivities` (strava-sync lines 196-236): start at page 1 with
an empty accumulator and the ceiling of 10 pages. -/
def fetchStravaActivities (pages : Nat → Option (List Activity)) :
    List Activity × Nat :=
  fetchPages pages 10 1 []

/-- Per-run statistics of the sync loop (strava-sync lines 64-109). -/
structure LoopStats where
  synced : Nat
  failed : Nat
  detailFetches : Nat
  upsertCalls : Nat
deriving Repr, DecidableEq

/-- The per-run loop of the sync handler (strava-sync lines 67-109): for each
run, fetch full details (`fetchStravaActivity`); a failed fetch increments
`failed` and continues; otherwise the upsert is attempted and `failed` or
`synced` is incremented according to the upsert outcome.  `detail` maps an
activity id to the HTTP response of its detail fetch; `upsertError` tells
whether the upsert of a given strava activity id errors. -/
def syncLoop (detail : Nat → HttpResp) (upsertError : Nat → Bool) :
    List Activity → LoopStats
  | [] => ⟨0, 0, 0, 0⟩
  | a :: rest =>
    let s := syncLoop detail upsertError rest
    match (fetchStravaActivity (detail a.id)).1 with
    | none => ⟨s.synced, s.failed + 1, s.detailFetches + 1, s.upsertCalls⟩
    | some fa =>
      if upsertError fa.id then
        ⟨s.synced, s.failed + 1, s.detailFetches + 1, s.upsertCalls + 1⟩
      else
        ⟨s.synced + 1, s.failed, s.detailFetches + 1, s.upsertCalls + 1⟩

/-- Responses of the strava-sync `Deno.serve` handler. -/
inductive SyncResp
| missingAthleteId
| profileNotFound
| summary (success : Bool) (total_fetched runs_found synced failed : Nat)
| serverError
deriving Repr, DecidableEq

/-- Environment of one sync request: the request's `athlete_id`, the result
of the profile lookup, the clock, the refresh-endpoint oracle, the listing
oracle, the per-activity detail oracle and the upsert-failure oracle. -/
structure SyncEnv where
  athlete_id : Option Nat
  profile : Option Profile
  now : Int
  refreshResp : Option RefreshData
  pages : Nat → Option (List Activity)
  detail : Nat → HttpResp
  upsertError : Nat → Bool

/-- The strava-sync `Deno.serve` handler (lines 8-130): missing `athlete_id`
is a 400; a profile-lookup miss is a 404 before any further work; tokens are
ensured (a thrown refresh failure is caught and answered 500); the listing
is paged, filtered to `type === 'Run'`, each run is detail-fetched and
upserted, and a 200 summary `{success: true, total_fetched, runs_found,
synced, failed}` is returned. -/
def syncHandler (env : SyncEnv) : SyncResp × Effects :=
  match env.athlete_id with
  | none => (SyncResp.missingAthleteId, Effects.zero)
  | some _ =>
    match env.profile with
    | none => (SyncResp.profileNotFound, Effects.zero)
    | some p =>
      match ensureValidTokens env.now env.refreshResp p with
      | (Except.error _, n) => (SyncResp.serverError, ⟨n, 0, 0, 0⟩)
      | (Except.ok _, n) =>
        let fetched := fetchStravaActivities env.pages
        let runs := fetched.1.filter (fun a => a.type == "Run")
        let s := syncLoop env.detail env.upsertError runs
        (SyncResp.summary true fetched.1.length runs.length s.synced s.failed,
          ⟨n, fetched.2, s.detailFetches, s.upsertCalls⟩)

theorem syncLoop_synced_add_failed (detail : Nat → HttpResp)
    (upsertError : Nat → Bool) (l : List Activity) :
    (syncLoop detail upsertError l).synced
      + (syncLoop detail upsertError l).failed = l.length := by
  induction l with
  | nil => rfl
  | cons a rest ih =>
    rcases hfa : (fetchStravaActivity (detail a.id)).1 with _ | fa
    · simp only [syncLoop, hfa, List.length_cons]
      omega
    · cases hu : upsertError fa.id <;>
        simp only [syncLoop, hfa, hu, List.length_cons, if_true, if_false,
          Bool.false_eq_true, Bool.true_eq_false, reduceIte] <;>
        omega

theorem fetchPages_count_le (pages : Nat → Option (List Activity)) :
    ∀ fuel page acc, (fetchPages pages fuel page acc).2 ≤ fuel := by
  intro fuel
  induction fuel with
  | zero => intro page acc; simp [fetchPages]
  | succ f ih =>
    intro page acc
    rcases hp : pages page with _ | batch
    · simp [fetchPages, hp]
    · rcases batch with _ | ⟨b, bs⟩
      · simp [fetchPages, hp]
      · by_cases hf : f = 0
        · simp [fetchPages, hp, hf]
        · have := ih (page + 1) (acc ++ (b :: bs))
          simp only [fetchPages, hp, hf, if_false]
          simpa using Nat.add_le_add_right this 1

def mkRun (i : Nat) : Activity := ⟨i, "Run", "r"⟩

def pageStub8 : Nat → Option (List Activity) := fun p => some [mkRun p]

/-- Claim C8: the paginated listing loop always terminates within the hard
ceiling — it performs at most 10 page fetches; an empty page stops it early
with the accumulated results; and when the ceiling is reached (an oracle
that never returns an empty page) it still returns the accumulated results
of pages 1..10 rather than failing. -/
theorem pagination_bound_spec (pages : Nat → Option (List Activity)) :
    ((fetchStravaActivities pages).2 ≤ 10)
    ∧ (∀ fuel page acc, fuel ≠ 0 → pages page = some [] →
        fetchPages pages fuel page acc = (acc, 1))
    ∧ (fetchStravaActivities pageStub8 =
        ((List.range 10).map (fun i => mkRun (i + 1)), 10)) := by
  refine ⟨fetchPages_count_le pages 10 1 [], ?_, by decide⟩
  intro fuel page acc hfuel hempty
  rcases fuel with _ | f
  · exact absurd rfl hfuel
  · simp [fetchPages, hempty]

/-- Witness for C8: a listing whose second page is empty is fetched in two
page calls, never failing, and the bound holds on the ceiling-hitting
stub. -/
theorem pagination_bound_spec_witness :
    ((fetchStravaActivities pageStub8).2 ≤ 10)
    ∧ fetchPages (fun _ => some []) 10 1 [] = ([], 1) := by
  constructor
  · exact (pagination_bound_spec pageStub8).1
  · exact (pagination_bound_spec (fun _ => some [])).2.1 10 1 []
      (by decide) rfl

def stubProfile : Profile := ⟨7, 42, "at", "rt", 10000000⟩

/-- Listing stub for the C6 scenario: pages of 100, 100 and 0 items, all of
type "Run". -/
def pagesStub6 : Nat → Option (List Activity) := fun p =>
  if p = 1 then some ((List.range 100).map (fun i => mkRun (100 + i)))
  else if p = 2 then some ((List.range 100).map (fun i => mkRun (200 + i)))
  else some []

def stubEnv6 : SyncEnv :=
  { athlete_id := some 42
    profile := some stubProfile
    now := 0
    refreshResp := none
    pages := pagesStub6
    detail := fun i => ⟨200, mkRun i⟩
    upsertError := fun _ => false }

set_option maxRecDepth 100000 in
/-- Claim C6: on the 100/100/0 all-"Run" stub with every detail fetch and
upsert succeeding, the sync summary is `{success: true, total_fetched: 200,
runs_found: 200, synced: 200, failed: 0}`; and in general, whenever the
request carries an athlete id, the profile exists and the token step does
not throw, the handler returns a success summary in which `total_fetched` is
the number of listed items, `runs_found` the number of those of type "Run",
and `synced + failed = runs_found`. -/
theorem sync_summary_spec :
    syncHandler stubEnv6 = (SyncResp.summary true 200 200 200 0, ⟨0, 3, 200, 200⟩)
    ∧ (∀ env : SyncEnv, ∀ aid p q n,
        env.athlete_id = some aid →
        env.profile = some p →
        ensureValidTokens env.now env.refreshResp p = (Except.ok q, n) →
        (syncHandler env).1 = SyncResp.summary true
            (fetchStravaActivities env.pages).1.length
            ((fetchStravaActivities env.pages).1.filter
              (fun a => a.type == "Run")).length
            (syncLoop env.detail env.upsertError
              ((fetchStravaActivities env.pages).1.filter
                (fun a => a.type == "Run"))).synced
            (syncLoop env.detail env.upsertError
              ((fetchStravaActivities env.pages).1.filter
                (fun a => a.type == "Run"))).failed
          ∧ (syncLoop env.detail env.upsertError
              ((fetchStravaActivities env.pages).1.filter
                (fun a => a.type == "Run"))).synced
            + (syncLoop env.detail env.upsertError
                ((fetchStravaActivities env.pages).1.filter
                  (fun a => a.type == "Run"))).failed
            = ((fetchStravaActivities env.pages).1.filter
                (fun a => a.type == "Run")).length) := by
  constructor
  · decide
  · intro env aid p q n haid hp hens
    refine ⟨?_, syncLoop_synced_add_failed env.detail env.upsertError _⟩
    simp [syncHandler, haid, hp, hens]

/-- Witness for C6's general clause, instantiated at the 100/100/0 stub. -/
theorem sync_summary_spec_witness :
    (syncHandler stubEnv6).1 = SyncResp.summary true
        (fetchStravaActivities stubEnv6.pages).1.length
        ((fetchStravaActivities stubEnv6.pages).1.filter
          (fun a => a.type == "Run")).length
        (syncLoop stubEnv6.detail stubEnv6.upsertError
          ((fetchStravaActivities stubEnv6.pages).1.filter
            (fun a => a.type == "Run"))).synced
        (syncLoop stubEnv6.detail stubEnv6.upsertError
          ((fetchStravaActivities stubEnv6.pages).1.filter
            (fun a => a.type == "Run"))).failed
    ∧ (syncLoop stubEnv6.detail stubEnv6.upsertError
        ((fetchStravaActivities stubEnv6.pages).1.filter
          (fun a => a.type == "Run"))).synced
      + (syncLoop stubEnv6.detail stubEnv6.upsertError
          ((fetchStravaActivities stubEnv6.pages).1.filter
            (fun a => a.type == "Run"))).failed
      = ((fetchStravaActivities stubEnv6.pages).1.filter
          (fun a => a.type == "Run")).length :=
  sync_summary_spec.2 stubEnv6 42 stubProfile stubProfile 0 rfl rfl
    (by norm_num [ensureValidTokens, stubEnv6, stubProfile])

/-- Claim C7: a local-account lookup miss diverges between the two ingestion
paths — a webhook delivery whose owner has no stored profile is acknowledged
with 200 and performs zero refreshes, fetches and upserts, while a sync
request whose athlete has no stored profile is answered 404 ("Profile not
found") with zero further effect calls. -/
theorem account_miss_spec (wenv : WebhookEnv) (senv : SyncEnv) :
    (wenv.profile = none → serveWebhook wenv = (200, Effects.zero))
    ∧ (∀ aid, senv.athlete_id = some aid → senv.profile = none →
        syncHandler senv = (SyncResp.profileNotFound, Effects.zero)) := by
  constructor
  · intro hp
    by_cases hobj : wenv.event.object_type = "activity"
    · by_cases h1 : wenv.event.aspect_type = "create"
      · simp [serveWebhook, handleWebhookEvent, hobj, h1, hp]
      · by_cases h2 : wenv.event.aspect_type = "update"
        · simp [serveWebhook, handleWebhookEvent, hobj, h1, h2, hp]
        · simp [serveWebhook, handleWebhookEvent, hobj, h1, h2]
    · simp [serveWebhook, handleWebhookEvent, hobj]
  · intro aid haid hp
    simp [syncHandler, haid, hp]

def webhookNoProfileEnv : WebhookEnv :=
  { event := ⟨"activity", "create", 42, 999⟩
    profile := none
    now := 1000
    refreshResp := none
    activityResp := ⟨200, act0⟩
    upsertError := false }

def syncNoProfileEnv : SyncEnv :=
  { athlete_id := some 42
    profile := none
    now := 1000
    refreshResp := none
    pages := fun _ => some []
    detail := fun i => ⟨200, mkRun i⟩
    upsertError := fun _ => false }

/-- Witness for C7 at concrete environments with no stored profile. -/
theorem account_miss_spec_witness :
    serveWebhook webhookNoProfileEnv = (200, Effects.zero)
    ∧ syncHandler syncNoProfileEnv = (SyncResp.profileNotFound, Effects.zero) :=
  ⟨(account_miss_spec webhookNoProfileEnv syncNoProfileEnv).1 rfl,
   (account_miss_spec webhookNoProfileEnv syncNoProfileEnv).2 42 rfl rfl⟩

/-- Listing stub for C10: page 1 returns 100 runs, page 2 a non-OK status. -/
def pagesStub10 : Nat → Option (List Activity) := fun p =>
  if p = 1 then some ((List.range 100).map (fun i => mkRun (100 + i)))
  else none

def stubEnv10 : SyncEnv :=
  { athlete_id := some 42
    profile := some stubProfile
    now := 0
    refreshResp := none
    pages := pagesStub10
    detail := fun i => ⟨200, mkRun i⟩
    upsertError := fun _ => false }

set_option maxRecDepth 100000 in
/-- Claim C10: a non-OK listing-page response stops pagination and returns
the activities accumulated from the earlier pages as the complete listing;
concretely, with page 1 returning 100 runs and page 2 a non-OK status, the
sync proceeds over the 100 accumulated items and still answers with a
success summary `{success: true, total_fetched: 100, runs_found: 100,
synced: 100, failed: 0}` in whose counts the listing failure never
appears. -/
theorem partial_listing_spec (pages : Nat → Option (List Activity)) :
    (∀ fuel page acc, fuel ≠ 0 → pages page = none →
        fetchPages pages fuel page acc = (acc, 1))
    ∧ syncHandler stubEnv10 =
        (SyncResp.summary true 100 100 100 0, ⟨0, 2, 100, 100⟩) := by
  constructor
  · intro fuel page acc hfuel hnone
    rcases fuel with _ | f
    · exact absurd rfl hfuel
    · simp [fetchPages, hnone]
  · decide

/-- Witness for C10's first clause: the non-OK page 2 of the concrete stub
stops pagination, returning the accumulator unchanged after that single
fetch. -/
theorem partial_listing_spec_witness :
    fetchPages pagesStub10 9 2 [mkRun 100] = ([mkRun 100], 1) :=
  (partial_listing_spec pagesStub10).1 9 2 [mkRun 100] (by decide) rfl

/-- One row of the `activities` table, restricted to the columns supplied by
the upsert payloads of strava-sync lines 79-98 and part_002 lines 113-132
(numeric columns as integers).  The schema (part_003 lines 32-52) declares
`strava_activity_id bigint unique not null`, the conflict key named by the
code's `onConflict: 'strava_activity_id'`. -/
structure ActivityRow where
  user_id : Nat
  strava_activity_id : Nat
  name : String
  activity_type : String
  start_date : String
  distance_meters : Int
  moving_time_seconds : Int
  elapsed_time_seconds : Int
  average_speed : Int
  max_speed : Int
  average_heartrate : Int
  max_heartrate : Int
  suffer_score : Int
deriving Repr, DecidableEq

/-- The `activities` upsert with `onConflict: 'strava_activity_id'`
(Postgres `INSERT ... ON CONFLICT (strava_activity_id) DO UPDATE` over the
unique key of part_003 line 35): if a row with the same
`strava_activity_id` exists, all supplied columns of that row are replaced
by the new values; otherwise the row is inserted. -/
def upsertActivity (table : List ActivityRow) (r : ActivityRow) :
    List ActivityRow :=
  if table.any (fun q => q.strava_activity_id == r.strava_activity_id) then
    table.map (fun q =>
      if q.strava_activity_id == r.strava_activity_id then r else q)
  else
    table ++ [r]

/-- Rows of the table carrying a given `strava_activity_id`. -/
def rowsWithStravaId (table : List ActivityRow) (k : Nat) : List ActivityRow :=
  table.filter (fun q => q.strava_activity_id == k)

theorem filter_map_replace (t : List ActivityRow) (k : Nat) (r : ActivityRow)
    (hr : r.strava_activity_id = k) :
    (t.map (fun q => if q.strava_activity_id == k then r else q)).filter
        (fun q => q.strava_activity_id == k)
      = List.replicate
          (t.filter (fun q => q.strava_activity_id == k)).length r := by
  induction t with
  | nil => rfl
  | cons q t ih =>
    by_cases hq : q.strava_activity_id = k
    · simp_all [List.filter_cons, List.replicate_succ]
    · simp_all [List.filter_cons]

theorem rowsWithStravaId_upsert (table : List ActivityRow) (r : ActivityRow)
    (h : (rowsWithStravaId table r.strava_activity_id).length ≤ 1) :
    rowsWithStravaId (upsertActivity table r) r.strava_activity_id = [r] := by
  rcases hany : table.any (fun q => q.strava_activity_id == r.strava_activity_id)
    with _ | _
  · have hnone : rowsWithStravaId table r.strava_activity_id = [] := by
      rw [rowsWithStravaId, List.filter_eq_nil_iff]
      intro q hq
      have := List.any_eq_false.mp hany q hq
      simpa using this
    rw [upsertActivity, hany, if_neg (by simp), rowsWithStravaId,
      List.filter_append]
    rw [rowsWithStravaId] at hnone
    simp [hnone]
  · have hmap : rowsWithStravaId
        (table.map (fun q =>
          if q.strava_activity_id == r.strava_activity_id then r else q))
        r.strava_activity_id
        = List.replicate
            (rowsWithStravaId table r.strava_activity_id).length r := by
      rw [rowsWithStravaId, rowsWithStravaId]
      exact filter_map_replace table r.strava_activity_id r rfl
    have hpos : 1 ≤ (rowsWithStravaId table r.strava_activity_id).length := by
      rcases List.any_eq_true.mp hany with ⟨q, hq, hqk⟩
      have : q ∈ rowsWithStravaId table r.strava_activity_id := by
        rw [rowsWithStravaId, List.mem_filter]
        exact ⟨hq, hqk⟩
      exact List.length_pos.mpr (fun hnil => by simp [hnil] at this)
    have hlen : (rowsWithStravaId table r.strava_activity_id).length = 1 := by
      omega
    rcases List.length_eq_one.mp hlen with ⟨q0, hq0⟩
    rw [upsertActivity, hany, if_pos rfl, hmap, hq0]
    rfl

/-- Claim C5: starting from a table with at most one row for a given
`strava_activity_id` (the schema's unique constraint), upserting a row with
that id and then upserting a second row with the same id but different field
values leaves exactly one row for that id, and that row carries the second
write's values — last write wins, re-synchronizing never duplicates. -/
theorem upsert_last_write_wins (table : List ActivityRow) (r1 r2 : ActivityRow)
    (hk : r2.strava_activity_id = r1.strava_activity_id)
    (h : (rowsWithStravaId table r1.strava_activity_id).length ≤ 1) :
    rowsWithStravaId (upsertActivity (upsertActivity table r1) r2)
        r1.strava_activity_id = [r2]
    ∧ (rowsWithStravaId (upsertActivity (upsertActivity table r1) r2)
        r1.strava_activity_id).length = 1 := by
  have h1 : rowsWithStravaId (upsertActivity table r1) r1.strava_activity_id
      = [r1] := rowsWithStravaId_upsert table r1 h
  have h2 : rowsWithStravaId (upsertActivity (upsertActivity table r1) r2)
      r2.strava_activity_id = [r2] := by
    refine rowsWithStravaId_upsert (upsertActivity table r1) r2 ?_
    rw [hk, h1]
    simp
  rw [hk] at h2
  exact ⟨h2, by rw [h2]; rfl⟩

def row1 : ActivityRow := ⟨7, 999, "Run A", "Run", "d1", 5000, 1500, 1600,
  3, 4, 150, 170, 30⟩

def row2 : ActivityRow := ⟨7, 999, "Run B", "Run", "d1", 5200, 1550, 1650,
  3, 5, 152, 171, 31⟩

/-- Witness for C5: upserting id 999 twice into an empty table, with
different values the second time, leaves exactly the one second-write
row. -/
theorem upsert_last_write_wins_witness :
    rowsWithStravaId (upsertActivity (upsertActivity [] row1) row2)
        row1.strava_activity_id = [row2]
    ∧ (rowsWithStravaId (upsertActivity (upsertActivity [] row1) row2)
        row1.strava_activity_id).length = 1 :=
  upsert_last_write_wins [] row1 row2 rfl (by decide)

/-- Leading-match test over character lists, the embedding of JavaScript
`String.prototype.startsWith`. -/
def strStartsWith : List Char → List Char → Bool
  | _, [] => true
  | [], _ :: _ => false
  | c :: rest, p :: ps => (c == p) && strStartsWith rest ps

/-- Substring containment over character lists, the embedding of JavaScript
`String.prototype.includes`. -/
def strContains : List Char → List Char → Bool
  | [], needle => needle.isEmpty
  | c :: rest, needle =>
    strStartsWith (c :: rest) needle || strContains rest needle

/-- `isLocalDev` of `handleLogin` (part_001 line 50): the redirect URI
contains "localhost" or "127.0.0.1". -/
def isLocalDev (uri : List Char) : Bool :=
  strContains uri "localhost".toList || strContains uri "127.0.0.1".toList

/-- Outcomes of `handleLogin` (part_001 lines 41-89). -/
inductive LoginResult
| configMissing
| insecureRedirect
| redirected
deriving Repr, DecidableEq

/-- `handleLogin` (part_001 lines 41-89): missing client id or redirect URI
throws a configuration error; a redirect URI that is neither local-dev nor
`https://`-prefixed throws ("STRAVA_REDIRECT_URI must use HTTPS in
production") before the CSRF state is generated or stored; otherwise the
state is stored and the 302 redirect is returned.  The second component
lists the CSRF states inserted into `oauth_states` during the call. -/
def handleLogin (clientId redirectUri : Option (List Char)) (state : String) :
    LoginResult × List String :=
  match clientId, redirectUri with
  | none, _ => (LoginResult.configMissing, [])
  | some _, none => (LoginResult.configMissing, [])
  | some _, some uri =>
    if !(isLocalDev uri) && !(strStartsWith uri "https://".toList) then
      (LoginResult.insecureRedirect, [])
    else
      (LoginResult.redirected, [state])

/-- Claim C9: a redirect URI that does not target a loopback/development
host (no "localhost" / "127.0.0.1" substring) and is not an `https://`
address makes `handleLogin` fail with a configuration error before issuing
any CSRF state; a loopback/development redirect URI is accepted — in
particular a plaintext one — and the login proceeds to issue its state and
redirect. -/
theorem login_https_spec (cid uri : List Char) (state : String) :
    (isLocalDev uri = false → strStartsWith uri "https://".toList = false →
      handleLogin (some cid) (some uri) state = (LoginResult.insecureRedirect, []))
    ∧ (isLocalDev uri = true →
      handleLogin (some cid) (some uri) state = (LoginResult.redirected, [state])) := by
  constructor
  · intro hdev hhttps
    simp at hhttps
    simp [handleLogin, hdev, hhttps]
  · intro hdev
    simp [handleLogin, hdev]

/-- Witness for C9: a plaintext non-loopback URI is rejected with no state
issued; a plaintext localhost URI is accepted and the state is issued. -/
theorem login_https_spec_witness :
    handleLogin (some "c1".toList) (some "http://example.com/cb".toList) "s1"
      = (LoginResult.insecureRedirect, [])
    ∧ handleLogin (some "c1".toList) (some "http://localhost:4200/cb".toList) "s1"
      = (LoginResult.redirected, ["s1"]) :=
  ⟨(login_https_spec "c1".toList "http://example.com/cb".toList "s1").1
      (by decide) (by decide),
   (login_https_spec "c1".toList "http://localhost:4200/cb".toList "s1").2
      (by decide)⟩
